import Mathlib

/-!
Verification model of the ClaudeMCP_Remote command bridge
(src/ClaudeMCP_Remote/__init__.py, with the tool-name catalogue from
src/ClaudeMCP_Remote/liveapi_tools.py).

The Python program is a socket bridge for a DAW remote script: socket threads
parse newline-framed JSON commands, allocate request ids under a lock, enqueue
commands on a FIFO, and block on a per-request response queue; the host's
update_display callback drains at most five commands per invocation on the main
thread, executes them, and publishes each result into the originating request's
response queue when that queue still exists.

The embedding is shallow: Python dicts whose insertion order and contents the
bridge inspects become association lists, the JSON layer and the tool layer
(LiveAPITools methods, json.loads) are abstracted as explicit parameters since
they are external to the modelled control flow, and each Python exception that
the bridge catches is a value of the PyExn type carrying str(e) and the
formatted traceback.
-/

namespace ClaudeMCP

/-- JSON-like values, as far as the bridge itself ever inspects or builds them:
booleans, strings, integers and lists of strings (the available_actions list).
Nested parameter values never influence the modelled control flow, so they are
not needed here. -/
inductive JVal where
  | jbool : Bool → JVal
  | jstr : String → JVal
  | jnum : Int → JVal
  | jlist : List String → JVal
deriving DecidableEq, Repr

/-- JSON object: a Python dict as an insertion-ordered association list. -/
abbrev JObj := List (String × JVal)

/-- Python dict lookup (command.get(key)) on a JSON object. -/
def getField : JObj → String → Option JVal
  | [], _ => none
  | (k, v) :: rest, key => if k = key then some v else getField rest key

/-- A caught Python exception: str(e) and traceback.format_exc(). -/
structure PyExn where
  msg : String
  tb : String
deriving DecidableEq, Repr

/-- External capabilities injected into the bridge: the LiveAPITools method
for each dispatched action (which may raise), and the Ableton major version
string reported by health_check. Neither is part of the modelled code. -/
structure Env where
  exec : String → JObj → Except PyExn JObj
  abletonMajorVersion : String

/-- The action names of the if/elif dispatch chain of _process_command after
the reserved actions ping and health_check, lines 218-617 of __init__.py, in
source order. -/
def toolActions : List String :=
 [
  "start_playback",
  "stop_playback",
  "start_recording",
  "stop_recording",
  "continue_playing",
  "get_session_info",
  "set_tempo",
  "set_time_signature",
  "set_loop_start",
  "set_loop_length",
  "set_metronome",
  "tap_tempo",
  "undo",
  "redo",
  "create_midi_track",
  "create_audio_track",
  "create_return_track",
  "delete_track",
  "duplicate_track",
  "rename_track",
  "set_track_volume",
  "set_track_pan",
  "arm_track",
  "solo_track",
  "mute_track",
  "get_track_info",
  "set_track_color",
  "create_midi_clip",
  "delete_clip",
  "duplicate_clip",
  "launch_clip",
  "stop_clip",
  "stop_all_clips",
  "get_clip_info",
  "set_clip_name",
  "add_notes",
  "get_clip_notes",
  "remove_notes",
  "add_device",
  "get_track_devices",
  "set_device_param",
  "create_scene",
  "delete_scene",
  "duplicate_scene",
  "launch_scene",
  "rename_scene",
  "get_scene_info",
  "jump_to_time",
  "get_current_time",
  "set_arrangement_overdub",
  "set_back_to_arranger",
  "set_punch_in",
  "set_punch_out",
  "nudge_up",
  "nudge_down",
  "re_enable_automation",
  "get_session_automation_record",
  "set_session_automation_record",
  "get_session_record",
  "set_session_record",
  "capture_midi",
  "set_track_fold_state",
  "set_track_input_routing",
  "set_track_output_routing",
  "set_track_send",
  "get_track_sends",
  "set_clip_looping",
  "set_clip_loop_start",
  "set_clip_loop_end",
  "set_clip_start_marker",
  "set_clip_end_marker",
  "set_clip_muted",
  "set_clip_gain",
  "set_clip_pitch_coarse",
  "set_clip_pitch_fine",
  "set_clip_signature_numerator",
  "select_all_notes",
  "deselect_all_notes",
  "replace_selected_notes",
  "get_notes_extended",
  "set_clip_groove_amount",
  "quantize_clip",
  "quantize_clip_pitch",
  "get_groove_amount",
  "set_groove_amount",
  "set_track_current_monitoring_state",
  "get_track_available_input_routing_types",
  "get_track_available_output_routing_types",
  "get_track_input_routing_type",
  "set_device_on_off",
  "get_device_parameters",
  "get_device_parameter_by_name",
  "set_device_parameter_by_name",
  "delete_device",
  "get_device_presets",
  "set_device_preset",
  "randomize_device_parameters",
  "get_project_root_folder",
  "trigger_session_record",
  "get_can_jump_to_next_cue",
  "get_can_jump_to_prev_cue",
  "jump_to_next_cue",
  "jump_to_prev_cue",
  "browse_devices",
  "browse_plugins",
  "load_device_from_browser",
  "get_browser_items",
  "set_loop_enabled",
  "get_loop_enabled",
  "create_locator",
  "delete_locator",
  "get_locators",
  "jump_by_amount",
  "set_clip_color",
  "get_track_output_routing",
  "set_track_input_sub_routing",
  "set_track_output_sub_routing",
  "randomize_device",
  "is_max_device",
  "get_m4l_devices",
  "set_device_param_by_name",
  "get_m4l_param_by_name",
  "get_cv_tools_devices",
  "get_master_track_info",
  "set_master_volume",
  "set_master_pan",
  "get_master_devices",
  "get_return_track_count",
  "get_return_track_info",
  "set_return_track_volume",
  "get_clip_warp_mode",
  "set_clip_warp_mode",
  "get_clip_file_path",
  "set_clip_warping",
  "get_warp_markers",
  "get_clip_follow_action",
  "set_clip_follow_action",
  "set_follow_action_time",
  "get_crossfader_assignment",
  "set_crossfader_assignment",
  "get_crossfader_position",
  "create_group_track",
  "group_tracks",
  "get_track_is_grouped",
  "ungroup_track",
  "show_clip_view",
  "show_arrangement_view",
  "focus_track",
  "scroll_view_to_time",
  "get_clip_color",
  "get_track_color",
  "get_groove_pool_grooves",
  "set_clip_groove",
  "get_device_chains",
  "get_chain_devices",
  "set_chain_mute",
  "set_chain_solo"
 ]

/-- LiveAPITools.get_available_tools, lines 4429-4558 of liveapi_tools.py:
the advertised tool-name catalogue, in source order. -/
def availableTools : List String :=
 [
  "ping",
  "health_check",
  "start_playback",
  "stop_playback",
  "start_recording",
  "stop_recording",
  "continue_playing",
  "get_session_info",
  "set_tempo",
  "set_time_signature",
  "set_loop_start",
  "set_loop_length",
  "set_metronome",
  "tap_tempo",
  "undo",
  "redo",
  "jump_to_time",
  "get_current_time",
  "set_arrangement_overdub",
  "set_back_to_arranger",
  "set_punch_in",
  "set_punch_out",
  "nudge_up",
  "nudge_down",
  "re_enable_automation",
  "get_session_automation_record",
  "set_session_automation_record",
  "get_session_record",
  "set_session_record",
  "capture_midi",
  "create_midi_track",
  "create_audio_track",
  "create_return_track",
  "delete_track",
  "duplicate_track",
  "rename_track",
  "set_track_volume",
  "set_track_pan",
  "arm_track",
  "solo_track",
  "mute_track",
  "get_track_info",
  "set_track_color",
  "set_track_fold_state",
  "set_track_input_routing",
  "set_track_output_routing",
  "set_track_send",
  "get_track_sends",
  "create_midi_clip",
  "delete_clip",
  "duplicate_clip",
  "launch_clip",
  "stop_clip",
  "stop_all_clips",
  "get_clip_info",
  "set_clip_name",
  "set_clip_looping",
  "set_clip_loop_start",
  "set_clip_loop_end",
  "set_clip_start_marker",
  "set_clip_end_marker",
  "set_clip_muted",
  "set_clip_gain",
  "set_clip_pitch_coarse",
  "set_clip_pitch_fine",
  "set_clip_signature_numerator",
  "add_notes",
  "get_clip_notes",
  "remove_notes",
  "select_all_notes",
  "deselect_all_notes",
  "replace_selected_notes",
  "get_notes_extended",
  "add_device",
  "get_track_devices",
  "set_device_param",
  "set_device_on_off",
  "get_device_parameters",
  "get_device_parameter_by_name",
  "set_device_parameter_by_name",
  "delete_device",
  "get_device_presets",
  "set_device_preset",
  "randomize_device_parameters",
  "create_scene",
  "delete_scene",
  "duplicate_scene",
  "launch_scene",
  "rename_scene",
  "get_scene_info",
  "set_clip_groove_amount",
  "quantize_clip",
  "quantize_clip_pitch",
  "get_groove_amount",
  "set_groove_amount",
  "set_track_current_monitoring_state",
  "get_track_available_input_routing_types",
  "get_track_available_output_routing_types",
  "get_track_input_routing_type",
  "get_project_root_folder",
  "trigger_session_record",
  "get_can_jump_to_next_cue",
  "get_can_jump_to_prev_cue",
  "jump_to_next_cue",
  "jump_to_prev_cue",
  "browse_devices",
  "browse_plugins",
  "load_device_from_browser",
  "get_browser_items",
  "set_loop_enabled",
  "get_loop_enabled",
  "create_locator",
  "delete_locator",
  "get_locators",
  "jump_by_amount",
  "set_clip_color",
  "get_track_output_routing",
  "set_track_input_sub_routing",
  "set_track_output_sub_routing",
  "randomize_device",
  "is_max_device",
  "get_m4l_devices",
  "set_device_param_by_name",
  "get_m4l_param_by_name",
  "get_cv_tools_devices",
  "get_master_track_info",
  "set_master_volume",
  "set_master_pan",
  "get_master_devices",
  "get_return_track_count",
  "get_return_track_info",
  "set_return_track_volume",
  "get_clip_warp_mode",
  "set_clip_warp_mode",
  "get_clip_file_path",
  "set_clip_warping",
  "get_warp_markers",
  "get_clip_follow_action",
  "set_clip_follow_action",
  "set_follow_action_time",
  "get_crossfader_assignment",
  "set_crossfader_assignment",
  "get_crossfader_position",
  "create_group_track",
  "group_tracks",
  "get_track_is_grouped",
  "ungroup_track",
  "show_clip_view",
  "show_arrangement_view",
  "focus_track",
  "scroll_view_to_time",
  "get_clip_color",
  "get_track_color",
  "get_groove_pool_grooves",
  "set_clip_groove",
  "get_device_chains",
  "get_chain_devices",
  "set_chain_mute",
  "set_chain_solo",
  "get_clip_automation_envelope",
  "create_automation_envelope",
  "clear_automation_envelope",
  "insert_automation_step",
  "remove_automation_step",
  "get_automation_envelope_values",
  "freeze_track",
  "unfreeze_track",
  "flatten_track",
  "get_clip_fade_in",
  "set_clip_fade_in",
  "get_clip_fade_out",
  "set_clip_fade_out",
  "get_scene_color",
  "set_scene_color",
  "get_track_annotation",
  "set_track_annotation",
  "get_clip_annotation",
  "set_clip_annotation",
  "get_track_delay",
  "set_track_delay",
  "get_arrangement_clips",
  "duplicate_to_arrangement",
  "consolidate_clip",
  "show_plugin_window",
  "hide_plugin_window",
  "get_metronome_volume",
  "set_metronome_volume",
  "send_midi_cc",
  "send_program_change",
  "get_sample_length",
  "get_sample_playback_mode",
  "set_sample_playback_mode",
  "get_clip_ram_mode",
  "set_clip_ram_mode",
  "get_device_class_name",
  "get_device_type",
  "get_take_lanes",
  "create_take_lane",
  "get_take_lane_name",
  "set_take_lane_name",
  "create_audio_clip_in_lane",
  "create_midi_clip_in_lane",
  "get_clips_in_take_lane",
  "delete_take_lane",
  "get_build_id",
  "get_variant",
  "show_message_box",
  "get_application_version",
  "get_device_param_display_value",
  "get_all_param_display_values",
  "get_clip_start_time",
  "set_clip_start_time",
  "get_track_is_foldable",
  "get_track_is_frozen",
  "get_scene_is_empty",
  "get_scene_tempo",
  "get_arrangement_overdub",
  "set_record_mode",
  "get_signature_numerator",
  "get_signature_denominator"
 ]

/-- Result of the reserved action ping, from lines 205-206 of __init__.py. -/
def pingResult : JObj :=
  [("ok", JVal.jbool true),
   ("message", JVal.jstr "pong (queue-based, thread-safe)"),
   ("script", JVal.jstr "ClaudeMCP_Remote")]

/-- Result of the reserved action health_check, lines 208-215 of __init__.py. -/
def healthCheckResult (queueSize : Nat) (ver : String) : JObj :=
  [("ok", JVal.jbool true),
   ("message", JVal.jstr "ClaudeMCP Remote Script running (thread-safe)"),
   ("tool_count", JVal.jnum availableTools.length),
   ("ableton_version", JVal.jstr ver),
   ("queue_size", JVal.jnum queueSize)]

/-- Result for an unmatched action, lines 620-625 of __init__.py. -/
def unknownActionResult (action : String) : JObj :=
  [("ok", JVal.jbool false),
   ("error", JVal.jstr ("Unknown action: " ++ action)),
   ("available_actions", JVal.jlist availableTools)]

/-- Result built by the catch-all handler of _process_command,
lines 627-634 of __init__.py. -/
def caughtExnResult (e : PyExn) : JObj :=
  [("ok", JVal.jbool false),
   ("error", JVal.jstr e.msg),
   ("traceback", JVal.jstr e.tb)]

/-- Degenerate case: command.get returned a non-string action value, so the
string concatenation in the unmatched-action branch raises a TypeError that the
catch-all handler converts to an error result. The exact interpreter message is
not modelled; no claim depends on this branch. -/
def typeErrorResult : JObj :=
  caughtExnResult { msg := "TypeError", tb := "TypeError" }

/-- The if/elif dispatch chain of _process_command after the two reserved
actions: test the action name against each table entry in order; on the first
match invoke the corresponding LiveAPITools method (abstracted as env.exec). -/
def dispatchChain (env : Env) (action : String) (cmd : JObj) :
    List String → Option (Except PyExn JObj)
  | [] => none
  | a :: rest =>
    if action = a then some (env.exec a cmd) else dispatchChain env action cmd rest

/-- ClaudeMCP._process_command, lines 190-634 of __init__.py. Runs on the main
thread; queueSize is command_queue.qsize() at call time (read by health_check).
Every exception raised by a tool method is caught by the outer handler and
converted to caughtExnResult. -/
def process_command (env : Env) (queueSize : Nat) (cmd : JObj) : JObj :=
  match (getField cmd "action").getD (JVal.jstr "") with
  | JVal.jstr action =>
    if action = "ping" then pingResult
    else if action = "health_check" then
      healthCheckResult queueSize env.abletonMajorVersion
    else
      match dispatchChain env action cmd toolActions with
      | some (Except.ok r) => r
      | some (Except.error e) => caughtExnResult e
      | none => unknownActionResult action
  | _ => typeErrorResult

/-- Shared mutable bridge state: the command FIFO (head is the front), the
request registry response_queues (request id to the list of results put into
that request's queue, oldest first), and the request counter. All three are
fields of the ClaudeMCP instance, lines 47-50 of __init__.py. -/
structure BridgeState where
  command_queue : List (Nat × JObj)
  response_queues : List (Nat × List JObj)
  request_counter : Nat
deriving DecidableEq, Repr

/-- Dict lookup in the request registry (request_id in self.response_queues /
self.response_queues[request_id]). -/
def findEntry (rid : Nat) : List (Nat × List JObj) → Option (List JObj)
  | [] => none
  | (k, v) :: rest => if k = rid then some v else findEntry rid rest

/-- The critical section under request_lock, lines 138-142 of __init__.py:
read the counter as the new request id, increment the counter, and create the
empty response queue for this request. Returns the allocated id and the new
state. -/
def allocate_request (st : BridgeState) : Nat × BridgeState :=
  (st.request_counter,
   { st with
     request_counter := st.request_counter + 1,
     response_queues := (st.request_counter, []) :: st.response_queues })

/-- Queue.put on the registry entry of one request id: append the result to
that entry's queue, leaving every other entry alone. -/
def putResult (rid : Nat) (r : JObj) (p : Nat × List JObj) : Nat × List JObj :=
  if p.1 = rid then (p.1, p.2 ++ [r]) else p

/-- Lines 656-657 of __init__.py: if the request id still has a registry entry,
put the response into its queue; otherwise the response is dropped. -/
def publishResponse (rqs : List (Nat × List JObj)) (rid : Nat) (r : JObj) :
    List (Nat × List JObj) :=
  if (findEntry rid rqs).isSome then rqs.map (putResult rid r) else rqs

/-- Lines 161-163 of __init__.py: under request_lock, delete the registry entry
for this request id if it is still present. -/
def removeEntry (rqs : List (Nat × List JObj)) (rid : Nat) :
    List (Nat × List JObj) :=
  if (findEntry rid rqs).isSome then rqs.filter (fun p => p.1 != rid) else rqs

/-- One executed command of a Dispatch Tick: its request id, the command, and
the response _process_command produced for it. -/
structure ProcEntry where
  rid : Nat
  cmd : JObj
  response : JObj
deriving DecidableEq, Repr

/-- Observable outcome of one or more Dispatch Tick invocations: the bridge
state afterwards and the commands executed, in execution order. -/
structure TickOut where
  state : BridgeState
  processed : List ProcEntry
deriving DecidableEq, Repr

/-- The while loop of update_display, lines 647-666 of __init__.py, with fuel
equal to the remaining budget of max_commands_per_tick - commands_processed:
pop a command (get_nowait; an empty queue breaks the loop), run
_process_command on the main thread, publish the response if the registry entry
still exists, and repeat. _process_command never lets an exception escape, and
get_nowait and Queue.put cannot fail here, so the except-and-break arm at lines
664-666 is unreachable and has no counterpart in the model. -/
def tickLoop (env : Env) : Nat → BridgeState → TickOut
  | 0, st => { state := st, processed := [] }
  | fuel + 1, st =>
    match st.command_queue with
    | [] => { state := st, processed := [] }
    | (rid, cmd) :: rest =>
      let response := process_command env rest.length cmd
      let st2 : BridgeState :=
        { st with
          command_queue := rest,
          response_queues := publishResponse st.response_queues rid response }
      let out := tickLoop env fuel st2
      { state := out.state,
        processed := { rid := rid, cmd := cmd, response := response } :: out.processed }

/-- The per-tick batch bound, line 645 of __init__.py. -/
def max_commands_per_tick : Nat := 5

/-- ClaudeMCP.update_display, lines 636-666 of __init__.py: one Dispatch Tick,
processing at most max_commands_per_tick commands. -/
def update_display (env : Env) (st : BridgeState) : TickOut :=
  tickLoop env max_commands_per_tick st

/-- k successive Dispatch Tick invocations, concatenating their execution
traces in order. -/
def runTicks (env : Env) : Nat → BridgeState → TickOut
  | 0, st => { state := st, processed := [] }
  | k + 1, st =>
    let t := update_display env st
    let rest := runTicks env k t.state
    { state := rest.state, processed := t.processed ++ rest.processed }

/-- Socket receive timeout in seconds, line 118 of __init__.py. -/
def socket_timeout : Nat := 30

/-- Response-queue wait timeout in seconds, line 153 of __init__.py. -/
def command_timeout : Nat := 25

/-- The response synthesized when the response-queue wait raises queue.Empty,
lines 154-158 of __init__.py. -/
def timeoutResult : JObj :=
  [("ok", JVal.jbool false),
   ("error", JVal.jstr "Command processing timeout - main thread may be busy")]

/-- The local error response built by the except arm at lines 169-174 of
__init__.py from the caught exception. -/
def localErrorResult (e : PyExn) : JObj :=
  [("ok", JVal.jbool false), ("error", JVal.jstr e.msg)]

/-- Observable outcome of handling one non-empty frame on a connection: the
bridge state afterwards, the frames the handler attempted to write to the
client socket (in order, whether or not the write succeeded), and whether the
handler left its read loop (closing the socket). -/
structure HandlerEffect where
  state : BridgeState
  writeAttempts : List JObj
  closed : Bool
deriving DecidableEq, Repr

/-- The body of the connection handler for one non-empty frame, lines 136-174
of __init__.py. External effects are passed as parameters: parseResult is the
outcome of json.loads on the frame, waitResult is some r if the response queue
delivered r within command_timeout and none if the wait raised queue.Empty, and
sendResult is the outcome of sendall on the response frame (none on success).
Control flow: the request id is allocated and its registry entry created
before parsing; a parse failure jumps to the except arm, which attempts one
best-effort error write (its own failure is swallowed by the inner
try/except-pass) and falls through to the next frame, leaving the registry
entry in place; on successful parse the command is enqueued, the handler waits,
deletes its registry entry, and writes the response; a sendall failure is
caught by the same except arm, which attempts one further best-effort error
write. No path in this block leaves the read loop. -/
def handle_message (st : BridgeState) (parseResult : Except PyExn JObj)
    (waitResult : Option JObj) (sendResult : Option PyExn) : HandlerEffect :=
  let rid := (allocate_request st).1
  let st1 := (allocate_request st).2
  match parseResult with
  | Except.error e =>
    { state := st1, writeAttempts := [localErrorResult e], closed := false }
  | Except.ok command =>
    let st2 : BridgeState :=
      { st1 with command_queue := st1.command_queue ++ [(rid, command)] }
    let response := waitResult.getD timeoutResult
    let st3 : BridgeState :=
      { st2 with response_queues := removeEntry st2.response_queues rid }
    match sendResult with
    | none => { state := st3, writeAttempts := [response], closed := false }
    | some e =>
      { state := st3,
        writeAttempts := [response, localErrorResult e],
        closed := false }

/-- All action names the dispatch of _process_command recognizes: the two
reserved actions followed by the tool dispatch chain. -/
def dispatchedActions : List String := "ping" :: "health_check" :: toolActions

/-- The bridge state after n request allocations. -/
def allocate_iter (st : BridgeState) : Nat → BridgeState
  | 0 => st
  | n + 1 => (allocate_request (allocate_iter st n)).2

/-- The request id handed out by the (n+1)-st allocation after state st. -/
def nth_allocated_id (st : BridgeState) (n : Nat) : Nat :=
  (allocate_request (allocate_iter st n)).1

/-- Fixture: an executor whose every tool method succeeds. -/
def env0 : Env :=
  { exec := fun _ _ => Except.ok [("ok", JVal.jbool true)],
    abletonMajorVersion := "12" }

/-- Fixture: an executor whose every tool method raises. -/
def envRaise : Env :=
  { exec := fun _ _ => Except.error { msg := "boom", tb := "tb" },
    abletonMajorVersion := "12" }

/-- Fixture: the bridge state right after initialization, lines 47-49. -/
def initState : BridgeState :=
  { command_queue := [], response_queues := [], request_counter := 0 }

/-- Fixture: a ping command object. -/
def pingCmd : JObj := [("action", JVal.jstr "ping")]

/-- Fixture: an undo command object. -/
def undoCmd : JObj := [("action", JVal.jstr "undo")]

/-- Fixture: a command object with an unrecognized action name. -/
def unknownCmd : JObj := [("action", JVal.jstr "frobnicate")]

/-- Fixture: a JSON parse failure as json.loads reports it. -/
def parseExn : PyExn :=
  { msg := "Expecting value: line 1 column 1 (char 0)", tb := "tb" }

/-- Fixture: a socket send failure. -/
def sendExn : PyExn := { msg := "Broken pipe", tb := "tb" }

/-- Fixture: a burst of seven queued commands. -/
def burstState : BridgeState :=
  { command_queue :=
      [(0, pingCmd), (1, pingCmd), (2, pingCmd), (3, pingCmd),
       (4, pingCmd), (5, pingCmd), (6, pingCmd)],
    response_queues := [], request_counter := 7 }

/-- Fixture: one queued command whose registry entry is still present. -/
def regState : BridgeState :=
  { command_queue := [(3, pingCmd)], response_queues := [(3, [])],
    request_counter := 4 }

/-- Fixture: one queued command whose tool method will raise, followed by a
second command. -/
def raiseState : BridgeState :=
  { command_queue := [(0, undoCmd), (1, pingCmd)], response_queues := [],
    request_counter := 2 }

/-- Helper: a matched dispatch-chain entry invokes the executor on that
action. -/
theorem dispatchChain_of_mem (env : Env) (a : String) (cmd : JObj) :
    ∀ l : List String, a ∈ l → dispatchChain env a cmd l = some (env.exec a cmd) := by
  intro l
  induction l with
  | nil => intro h; cases h
  | cons b t ih =>
    intro h
    by_cases hab : a = b
    · subst hab; simp [dispatchChain]
    · have ht : a ∈ t := by
        cases h with
        | head => exact absurd rfl hab
        | tail _ h2 => exact h2
      simp [dispatchChain, hab, ih ht]

/-- Helper: an action absent from the chain falls through it. -/
theorem dispatchChain_of_not_mem (env : Env) (a : String) (cmd : JObj) :
    ∀ l : List String, a ∉ l → dispatchChain env a cmd l = none := by
  intro l
  induction l with
  | nil => intro _; rfl
  | cons b t ih =>
    intro h
    have hab : a ≠ b := fun he => h (he ▸ List.mem_cons_self b t)
    have ht : a ∉ t := fun h2 => h (List.mem_cons_of_mem b h2)
    simp [dispatchChain, hab, ih ht]

/-- Helper: an action matched by no branch of _process_command yields the
unknown-action response. -/
theorem process_command_not_dispatched (env : Env) (n : Nat) (cmd : JObj)
    (a : String)
    (ha : (getField cmd "action").getD (JVal.jstr "") = JVal.jstr a)
    (hmem : a ∉ dispatchedActions) :
    process_command env n cmd = unknownActionResult a := by
  have hping : a ≠ "ping" := by
    rintro rfl; exact hmem (by decide)
  have hhc : a ≠ "health_check" := by
    rintro rfl; exact hmem (by decide)
  have htool : a ∉ toolActions := fun h =>
    hmem (List.mem_cons_of_mem _ (List.mem_cons_of_mem _ h))
  simp [process_command, ha, hping, hhc,
        dispatchChain_of_not_mem env a cmd toolActions htool]

/-- Helper: a tool-table action whose tool method raises yields the
caught-exception response. -/
theorem process_command_tool_raises (env : Env) (n : Nat) (cmd : JObj)
    (a : String) (ex : PyExn)
    (ha : getField cmd "action" = some (JVal.jstr a)) (hmem : a ∈ toolActions)
    (hexec : env.exec a cmd = Except.error ex) :
    process_command env n cmd = caughtExnResult ex := by
  have hping : a ≠ "ping" := by
    rintro rfl; revert hmem; decide
  have hhc : a ≠ "health_check" := by
    rintro rfl; revert hmem; decide
  simp [process_command, ha, hping, hhc,
        dispatchChain_of_mem env a cmd toolActions hmem, hexec]

/-- Claim C8 counterexample: the ping response of _process_command is not the
two-field object the claim specifies; its message is not the bare "pong" and
it carries a script field. -/
theorem C8_counterexample :
    process_command env0 0 pingCmd ≠
      [("ok", JVal.jbool true), ("message", JVal.jstr "pong")] := by
  decide

/-- Claim C8 amended: every command whose action field is "ping" is answered
with exactly the object with ok true, message
"pong (queue-based, thread-safe)" and script "ClaudeMCP_Remote". -/
theorem C8_ping_response (env : Env) (n : Nat) (cmd : JObj)
    (h : getField cmd "action" = some (JVal.jstr "ping")) :
    process_command env n cmd = pingResult := by
  simp [process_command, h]

/-- Witness for C8 at a concrete ping command. -/
theorem C8_ping_response_witness :
    getField pingCmd "action" = some (JVal.jstr "ping") ∧
    process_command env0 0 pingCmd = pingResult :=
  ⟨by decide, C8_ping_response env0 0 pingCmd (by decide)⟩

/-- Claim C9: a command whose action string matches no dispatched operation is
answered with ok false, the error string naming the submitted action, and the
full advertised tool-name catalogue of LiveAPITools.get_available_tools. -/
theorem C9_unknown_action (env : Env) (n : Nat) (cmd : JObj) (a : String)
    (ha : getField cmd "action" = some (JVal.jstr a))
    (hmem : a ∉ dispatchedActions) :
    process_command env n cmd = unknownActionResult a ∧
    getField (unknownActionResult a) "error" =
        some (JVal.jstr ("Unknown action: " ++ a)) ∧
    getField (unknownActionResult a) "ok" = some (JVal.jbool false) ∧
    getField (unknownActionResult a) "available_actions" =
        some (JVal.jlist availableTools) := by
  refine ⟨?_, rfl, rfl, rfl⟩
  exact process_command_not_dispatched env n cmd a (by simp [ha]) hmem

/-- Witness for C9 at a concrete unrecognized action. -/
theorem C9_unknown_action_witness :
    getField unknownCmd "action" = some (JVal.jstr "frobnicate") ∧
    "frobnicate" ∉ dispatchedActions ∧
    process_command env0 0 unknownCmd = unknownActionResult "frobnicate" :=
  ⟨by decide, by decide,
   (C9_unknown_action env0 0 unknownCmd "frobnicate" (by decide) (by decide)).1⟩

/-- Claim C10: a parsed command without an action field, or with the empty
string as its action, does not raise: command.get defaults the action to the
empty string and the unknown-action response with empty name is returned. -/
theorem C10_missing_action (env : Env) (n : Nat) (cmd : JObj)
    (h : getField cmd "action" = none ∨
         getField cmd "action" = some (JVal.jstr "")) :
    process_command env n cmd = unknownActionResult "" ∧
    getField (unknownActionResult "") "error" =
        some (JVal.jstr "Unknown action: ") := by
  constructor
  · refine process_command_not_dispatched env n cmd "" ?_ (by decide)
    rcases h with h | h <;> simp [h]
  · rfl

/-- Witness for C10 at the empty command object. -/
theorem C10_missing_action_witness :
    getField ([] : JObj) "action" = none ∧
    process_command env0 0 ([] : JObj) = unknownActionResult "" :=
  ⟨rfl, (C10_missing_action env0 0 [] (Or.inl rfl)).1⟩

/-- Helper: n allocations advance the request counter by exactly n. -/
theorem allocate_iter_counter (st : BridgeState) :
    ∀ n : Nat, (allocate_iter st n).request_counter = st.request_counter + n := by
  intro n
  induction n with
  | zero => rfl
  | succ k ih =>
    simp only [allocate_iter, allocate_request, ih]
    omega

/-- Helper: the (n+1)-st allocated request id is the initial counter plus n. -/
theorem nth_allocated_id_eq (st : BridgeState) (n : Nat) :
    nth_allocated_id st n = st.request_counter + n := by
  unfold nth_allocated_id allocate_request
  simp [allocate_iter_counter]

/-- Claim C3: request ids allocated under the request lock are strictly
increasing in allocation order, hence pairwise distinct and never reused for
the process lifetime. -/
theorem C3_request_ids_monotone (st : BridgeState) (i j : Nat) :
    (i < j → nth_allocated_id st i < nth_allocated_id st j) ∧
    (i ≠ j → nth_allocated_id st i ≠ nth_allocated_id st j) := by
  rw [nth_allocated_id_eq, nth_allocated_id_eq]
  omega

/-- Witness for C3 at the freshly initialized bridge and the first two
allocations. -/
theorem C3_request_ids_monotone_witness :
    0 < 1 ∧ nth_allocated_id initState 0 < nth_allocated_id initState 1 :=
  ⟨by decide, (C3_request_ids_monotone initState 0 1).1 (by decide)⟩

/-- Helper: a Dispatch Tick loop with budget n leaves exactly the commands
beyond the first n in the queue. -/
theorem tickLoop_queue (env : Env) :
    ∀ (n : Nat) (st : BridgeState),
      (tickLoop env n st).state.command_queue = st.command_queue.drop n := by
  intro n
  induction n with
  | zero => intro st; simp [tickLoop]
  | succ k ih =>
    intro st
    cases hq : st.command_queue with
    | nil => simp [tickLoop, hq]
    | cons hd tl =>
      obtain ⟨rid, cmd⟩ := hd
      simp [tickLoop, hq, ih]

/-- Helper: a Dispatch Tick loop with budget n executes exactly the first n
queued commands, in queue order. -/
theorem tickLoop_processed (env : Env) :
    ∀ (n : Nat) (st : BridgeState),
      (tickLoop env n st).processed.map (fun e => (e.rid, e.cmd)) =
        st.command_queue.take n := by
  intro n
  induction n with
  | zero => intro st; simp [tickLoop]
  | succ k ih =>
    intro st
    cases hq : st.command_queue with
    | nil => simp [tickLoop, hq]
    | cons hd tl =>
      obtain ⟨rid, cmd⟩ := hd
      simp [tickLoop, hq, ih]

/-- Helper: k Dispatch Ticks drop five commands each from the queue. -/
theorem runTicks_queue (env : Env) :
    ∀ (k : Nat) (st : BridgeState),
      (runTicks env k st).state.command_queue =
        st.command_queue.drop (max_commands_per_tick * k) := by
  intro k
  induction k with
  | zero => intro st; simp [runTicks]
  | succ k ih =>
    intro st
    simp only [runTicks, ih, update_display, tickLoop_queue, List.drop_drop]
    congr 1
    ring

/-- Helper: k Dispatch Ticks execute exactly the first five-times-k queued
commands, in queue order with their batches concatenated. -/
theorem runTicks_processed (env : Env) :
    ∀ (k : Nat) (st : BridgeState),
      (runTicks env k st).processed.map (fun e => (e.rid, e.cmd)) =
        st.command_queue.take (max_commands_per_tick * k) := by
  intro k
  induction k with
  | zero => intro st; simp [runTicks]
  | succ k ih =>
    intro st
    simp only [runTicks, List.map_append, ih, update_display, tickLoop_processed,
               tickLoop_queue]
    rw [show max_commands_per_tick * (k + 1) =
          max_commands_per_tick + max_commands_per_tick * k by ring,
        List.take_add]

/-- Claim C2: one Dispatch Tick executes exactly the first
min(max_commands_per_tick, queue length) queued commands in order, stops early
only on an empty queue, and leaves the remainder queued; enough repeated
invocations process every queued command exactly once, with none lost and none
duplicated (the concatenated execution trace equals the original queue). -/
theorem C2_dispatch_tick_batches (env : Env) (st : BridgeState) (k : Nat) :
    (update_display env st).processed.map (fun e => (e.rid, e.cmd)) =
        st.command_queue.take max_commands_per_tick ∧
    (update_display env st).processed.length =
        min max_commands_per_tick st.command_queue.length ∧
    (update_display env st).state.command_queue =
        st.command_queue.drop max_commands_per_tick ∧
    (st.command_queue.length ≤ max_commands_per_tick * k →
      (runTicks env k st).state.command_queue = [] ∧
      (runTicks env k st).processed.map (fun e => (e.rid, e.cmd)) =
        st.command_queue) := by
  refine ⟨tickLoop_processed env _ st, ?_, tickLoop_queue env _ st, ?_⟩
  · have hlen := congrArg List.length
      (tickLoop_processed env max_commands_per_tick st)
    simpa using hlen
  · intro hk
    constructor
    · rw [runTicks_queue]
      exact List.drop_eq_nil_of_le hk
    · rw [runTicks_processed]
      exact List.take_of_length_le hk

/-- Witness for C2: a burst of seven commands is fully processed, in order and
exactly once, by two Dispatch Ticks. -/
theorem C2_dispatch_tick_batches_witness :
    burstState.command_queue.length ≤ max_commands_per_tick * 2 ∧
    (runTicks env0 2 burstState).state.command_queue = [] ∧
    (runTicks env0 2 burstState).processed.map (fun e => (e.rid, e.cmd)) =
      burstState.command_queue :=
  ⟨by decide,
   ((C2_dispatch_tick_batches env0 burstState 2).2.2.2 (by decide)).1,
   ((C2_dispatch_tick_batches env0 burstState 2).2.2.2 (by decide)).2⟩

/-- Claim C4: when the tool method of a dequeued command raises, the Dispatch
Tick answers that command alone with ok false carrying the exception message,
and the same invocation still executes its full batch while the queue advances
normally for all future invocations. -/
theorem C4_executor_exception_isolated (env : Env) (st : BridgeState)
    (rid : Nat) (cmd : JObj) (rest : List (Nat × JObj)) (a : String) (ex : PyExn)
    (hq : st.command_queue = (rid, cmd) :: rest)
    (ha : getField cmd "action" = some (JVal.jstr a))
    (hmem : a ∈ toolActions)
    (hexec : env.exec a cmd = Except.error ex) :
    (update_display env st).processed.head? =
        some { rid := rid, cmd := cmd, response := caughtExnResult ex } ∧
    getField (caughtExnResult ex) "ok" = some (JVal.jbool false) ∧
    getField (caughtExnResult ex) "error" = some (JVal.jstr ex.msg) ∧
    (update_display env st).processed.map (fun e => (e.rid, e.cmd)) =
        st.command_queue.take max_commands_per_tick ∧
    (update_display env st).state.command_queue =
        st.command_queue.drop max_commands_per_tick := by
  refine ⟨?_, rfl, rfl, tickLoop_processed env _ st, tickLoop_queue env _ st⟩
  have hpc : process_command env rest.length cmd = caughtExnResult ex :=
    process_command_tool_raises env rest.length cmd a ex ha hmem hexec
  have h5 : max_commands_per_tick = 4 + 1 := rfl
  rw [update_display, h5]
  simp [tickLoop, hq, hpc]

/-- Witness for C4: a raising undo command followed by a ping command. -/
theorem C4_executor_exception_isolated_witness :
    raiseState.command_queue = (0, undoCmd) :: [(1, pingCmd)] ∧
    getField undoCmd "action" = some (JVal.jstr "undo") ∧
    "undo" ∈ toolActions ∧
    envRaise.exec "undo" undoCmd = Except.error { msg := "boom", tb := "tb" } ∧
    (update_display envRaise raiseState).processed.head? =
      some { rid := 0, cmd := undoCmd,
             response := caughtExnResult { msg := "boom", tb := "tb" } } :=
  ⟨rfl, by decide, by decide, rfl,
   (C4_executor_exception_isolated envRaise raiseState 0 undoCmd [(1, pingCmd)]
      "undo" { msg := "boom", tb := "tb" } rfl (by decide) (by decide) rfl).1⟩

/-- Helper: registry lookup at the head entry's own id. -/
theorem findEntry_cons_self (rid : Nat) (v : List JObj)
    (t : List (Nat × List JObj)) :
    findEntry rid ((rid, v) :: t) = some v := by
  simp [findEntry]

/-- Helper: registry lookup walks past a head entry with a different id. -/
theorem findEntry_cons_other (rid k : Nat) (v : List JObj)
    (t : List (Nat × List JObj)) (hk : k ≠ rid) :
    findEntry rid ((k, v) :: t) = findEntry rid t := by
  simp [findEntry, hk]

/-- Helper: putResult rewrites the entry of its own request id. -/
theorem putResult_self (rid : Nat) (r : JObj) (v : List JObj) :
    putResult rid r (rid, v) = (rid, v ++ [r]) := by
  simp [putResult]

/-- Helper: putResult leaves entries of other request ids unchanged. -/
theorem putResult_other (rid : Nat) (r : JObj) (k : Nat) (v : List JObj)
    (hk : k ≠ rid) : putResult rid r (k, v) = (k, v) := by
  simp [putResult, hk]

/-- Helper: putting a result into an existing registry entry appends it to
that request's queue. -/
theorem findEntry_map_update (rid : Nat) (r : JObj) :
    ∀ (rqs : List (Nat × List JObj)) (q : List JObj),
      findEntry rid rqs = some q →
      findEntry rid (rqs.map (putResult rid r)) = some (q ++ [r]) := by
  intro rqs
  induction rqs with
  | nil => intro q h; simp [findEntry] at h
  | cons p t ih =>
    intro q h
    obtain ⟨k, v⟩ := p
    by_cases hk : k = rid
    · subst hk
      rw [findEntry_cons_self] at h
      rw [List.map_cons, putResult_self, findEntry_cons_self]
      rw [Option.some.inj h]
    · rw [findEntry_cons_other _ _ _ _ hk] at h
      rw [List.map_cons, putResult_other _ _ _ _ hk,
          findEntry_cons_other _ _ _ _ hk]
      exact ih q h

/-- Helper: publishing under one request id never touches entries of other
request ids. -/
theorem findEntry_map_other (rid rid2 : Nat) (r : JObj) (hne : rid2 ≠ rid) :
    ∀ rqs : List (Nat × List JObj),
      findEntry rid2 (rqs.map (putResult rid r)) = findEntry rid2 rqs := by
  intro rqs
  induction rqs with
  | nil => simp [findEntry]
  | cons p t ih =>
    obtain ⟨k, v⟩ := p
    by_cases hk : k = rid
    · subst hk
      rw [List.map_cons, putResult_self,
          findEntry_cons_other _ _ _ _ (Ne.symm hne),
          findEntry_cons_other _ _ _ _ (Ne.symm hne)]
      exact ih
    · by_cases hk2 : k = rid2
      · subst hk2
        rw [List.map_cons, putResult_other _ _ _ _ hk,
            findEntry_cons_self, findEntry_cons_self]
      · rw [List.map_cons, putResult_other _ _ _ _ hk,
            findEntry_cons_other _ _ _ _ hk2,
            findEntry_cons_other _ _ _ _ hk2]
        exact ih

/-- Claim C7: after the Dispatch Tick executes a dequeued command, the result
is put into the request's response queue exactly when a registry entry for
that request id still exists; when the handler has already removed the entry
the result is dropped and the registry is left entirely unchanged, and entries
of other request ids are never touched either way. -/
theorem C7_publish_iff_registered (env : Env) (st : BridgeState) (rid : Nat)
    (cmd : JObj) (q : List JObj)
    (hq : st.command_queue = [(rid, cmd)]) :
    (findEntry rid st.response_queues = some q →
      findEntry rid (update_display env st).state.response_queues =
        some (q ++ [process_command env 0 cmd])) ∧
    (findEntry rid st.response_queues = none →
      (update_display env st).state.response_queues = st.response_queues) ∧
    (∀ rid2, rid2 ≠ rid →
      findEntry rid2 (update_display env st).state.response_queues =
        findEntry rid2 st.response_queues) := by
  obtain ⟨cq, rqs, rc⟩ := st
  simp only at hq
  subst hq
  have hstate :
      (update_display env
        { command_queue := [(rid, cmd)], response_queues := rqs,
          request_counter := rc }).state.response_queues =
      publishResponse rqs rid (process_command env 0 cmd) := rfl
  rw [hstate]
  refine ⟨?_, ?_, ?_⟩
  · intro h
    rw [publishResponse, if_pos (by simp [h])]
    exact findEntry_map_update rid _ rqs q h
  · intro h
    rw [publishResponse, if_neg (by simp [h])]
  · intro rid2 hne
    by_cases hg : (findEntry rid rqs).isSome
    · rw [publishResponse, if_pos hg]
      exact findEntry_map_other rid rid2 _ hne rqs
    · rw [publishResponse, if_neg hg]

/-- Witness for C7: a registered single-command queue receives its published
result. -/
theorem C7_publish_iff_registered_witness :
    regState.command_queue = [(3, pingCmd)] ∧
    findEntry 3 regState.response_queues = some [] ∧
    findEntry 3 (update_display env0 regState).state.response_queues =
      some ([] ++ [process_command env0 0 pingCmd]) :=
  ⟨rfl, by decide,
   (C7_publish_iff_registered env0 regState 3 pingCmd [] rfl).1 (by decide)⟩

/-- Helper: after filtering out every entry with the given request id, lookup
of that id fails. -/
theorem findEntry_filter_ne (rid : Nat) :
    ∀ rqs : List (Nat × List JObj),
      findEntry rid (rqs.filter fun p => p.1 != rid) = none := by
  intro rqs
  induction rqs with
  | nil => rfl
  | cons p t ih =>
    obtain ⟨k, v⟩ := p
    by_cases hk : k = rid
    · subst hk
      simpa [List.filter_cons] using ih
    · rw [List.filter_cons]
      have hb : ((k, v).1 != rid) = true := by
        simpa using hk
      rw [if_pos hb, findEntry_cons_other _ _ _ _ hk]
      exact ih

/-- Helper: deleting a request id from the registry makes its lookup fail,
whether or not the entry was present. -/
theorem findEntry_removeEntry (rqs : List (Nat × List JObj)) (rid : Nat) :
    findEntry rid (removeEntry rqs rid) = none := by
  by_cases h : (findEntry rid rqs).isSome
  · rw [removeEntry, if_pos h]
    exact findEntry_filter_ne rid rqs
  · rw [removeEntry, if_neg h]
    exact Option.not_isSome_iff_eq_none.mp h

/-- Claim C1 counterexample: at the freshly initialized bridge, handling a
frame that fails to parse increments the request counter from zero to one and
creates a registry entry for the consumed id, so a Request ID is consumed,
contrary to the claim. -/
theorem C1_counterexample :
    (handle_message initState (Except.error parseExn) none none).state.request_counter =
        initState.request_counter + 1 ∧
    findEntry initState.request_counter
        (handle_message initState (Except.error parseExn) none none).state.response_queues =
      some [] := by
  decide

/-- Claim C1 amended: a non-empty frame that fails to parse produces exactly
one attempted local error write, enqueues nothing on the command queue, and
leaves the connection open; however the handler does consume a Request ID: the
request counter is incremented and a fresh registry entry is created before
parsing, and the parse-failure path never removes that entry. -/
theorem C1_parse_failure (st : BridgeState) (e : PyExn) (w : Option JObj)
    (s : Option PyExn) :
    (handle_message st (Except.error e) w s).writeAttempts = [localErrorResult e] ∧
    (handle_message st (Except.error e) w s).closed = false ∧
    (handle_message st (Except.error e) w s).state.command_queue =
        st.command_queue ∧
    (handle_message st (Except.error e) w s).state.request_counter =
        st.request_counter + 1 ∧
    findEntry st.request_counter
        (handle_message st (Except.error e) w s).state.response_queues =
      some [] := by
  refine ⟨rfl, rfl, rfl, rfl, ?_⟩
  exact findEntry_cons_self st.request_counter [] st.response_queues

/-- Claim C5 counterexample: the response written after a handler-side timeout
is the synthesized timeout result, but its error string is not the claimed
"Command processing timeout": the code uses the longer message
"Command processing timeout - main thread may be busy". -/
theorem C5_counterexample :
    (handle_message initState (Except.ok pingCmd) none none).writeAttempts =
        [timeoutResult] ∧
    getField timeoutResult "error" ≠
        some (JVal.jstr "Command processing timeout") := by
  decide

/-- Claim C5 amended: when the response-queue wait expires, the handler
synthesizes the result with ok false and error
"Command processing timeout - main thread may be busy", removes its own
registry entry, writes exactly that result back, and stays in its read loop;
the 25-unit command timeout is strictly shorter than the 30-unit socket
receive timeout. -/
theorem C5_timeout_behaviour (st : BridgeState) (cmd : JObj) :
    command_timeout < socket_timeout ∧
    (handle_message st (Except.ok cmd) none none).writeAttempts =
        [timeoutResult] ∧
    getField timeoutResult "ok" = some (JVal.jbool false) ∧
    getField timeoutResult "error" =
        some (JVal.jstr "Command processing timeout - main thread may be busy") ∧
    findEntry st.request_counter
        (handle_message st (Except.ok cmd) none none).state.response_queues =
      none ∧
    (handle_message st (Except.ok cmd) none none).closed = false := by
  refine ⟨by decide, rfl, rfl, rfl, ?_, rfl⟩
  exact findEntry_removeEntry _ st.request_counter

/-- Claim C6 counterexample: after a failed response write, the handler does
not transition to Closed: it stays in its read loop and performs a second
write attempt (the best-effort error response about the send failure). -/
theorem C6_counterexample :
    (handle_message initState (Except.ok pingCmd) (some pingResult)
        (some sendExn)).closed = false ∧
    (handle_message initState (Except.ok pingCmd) (some pingResult)
        (some sendExn)).writeAttempts.length = 2 := by
  decide

/-- Claim C6 amended: a failure to write a response frame is caught by the
per-message except arm: the handler attempts exactly one further best-effort
error write naming the send failure and then continues its read loop; it does
not close the connection (the socket is closed only when the receive loop
itself ends). -/
theorem C6_write_failure (st : BridgeState) (cmd r : JObj) (e : PyExn) :
    (handle_message st (Except.ok cmd) (some r) (some e)).writeAttempts =
        [r, localErrorResult e] ∧
    (handle_message st (Except.ok cmd) (some r) (some e)).closed = false :=
  ⟨rfl, rfl⟩

end ClaudeMCP
